import Mathlib

/-!
Verification of the GCN stock-analysis microservice (src/backend/gcn/app.py and
src/backend/gcn/model.py) against its natural-language specification.

Shallow embedding conventions:
* Python floats are modelled as exact rationals (ℚ); the one function whose
  mathematics needs a square root (`normalize_adj`) is parametric in the
  square-root function, and the theorem about it instantiates `Real.sqrt`.
* Python exceptions are values of `PyExn`; a FastAPI handler body is a value of
  `Except PyExn α`, and the `try/except Exception` wrapper every endpoint uses
  is the function `handler_wrap`.  Starlette `HTTPException` is an `Exception`
  subclass, so a raised 400 is caught by the blanket `except` like any error.
* Calls into external libraries (torch model forward passes on randomly
  initialised weights, sklearn KMeans/k-NN, numpy corrcoef, torch autograd)
  are oracle parameters: the service itself is non-deterministic there
  (fresh random weights per request), so theorems quantify over the oracle.
  Everything the repository itself computes is translated directly.
-/

namespace StockGCN

/-- Python exception values that the service can raise or propagate. -/
inductive PyExn where
  | http (status : Nat) (detail : String)
  | typeError (msg : String)
  | valueError (msg : String)
  | indexError (msg : String)
deriving DecidableEq, Repr

/-- Python str(e) of an exception: starlette HTTPException renders as
"status: detail", the builtin exceptions render their message. -/
def PyExn.message : PyExn → String
  | .http s d => toString s ++ ": " ++ d
  | .typeError m => m
  | .valueError m => m
  | .indexError m => m

/-- An HTTP error response as FastAPI sends it for a raised HTTPException. -/
structure HTTPError where
  status_code : Nat
  detail : String
deriving DecidableEq, Repr

/-- The `try: ... except Exception as e: raise HTTPException(500, str(e))`
wrapper every endpoint of app.py puts around its body.  Starlette
HTTPException subclasses Exception, so an HTTPException(400) raised inside the
body is caught here too and re-raised with status 500. -/
def handler_wrap {α : Type} (body : Except PyExn α) : Except HTTPError α :=
  match body with
  | .ok r => .ok r
  | .error e => .error ⟨500, e.message⟩

/-- Shape of np.array(features, dtype=float32) for a nested Python list:
[] gives the 1-D shape (0,); a list of equal-length rows gives (rows, cols);
a ragged nested list makes np.array raise. -/
def np_shape (features : List (List ℚ)) : Except PyExn (List Nat) :=
  match features with
  | [] => .ok [0]
  | r :: rs =>
    if rs.all (fun row => row.length == r.length) then .ok [features.length, r.length]
    else .error (.valueError "setting an array element with a sequence")

/-- The prologue `X = np.array(features); n, f = X.shape` of every endpoint:
unpacking the shape into two variables raises ValueError when the array is
1-dimensional (in particular for the empty feature list). -/
def np_shape_unpack2 (features : List (List ℚ)) : Except PyExn (Nat × Nat) := do
  let s ← np_shape features
  match s with
  | [n, f] => pure (n, f)
  | _ => throw (.valueError "not enough values to unpack, expected 2 got 1")

/-- A numpy/torch 2-D array: its shape and an entry function (entries outside
the shape are irrelevant and read as whatever the function returns). -/
structure Mat (α : Type) where
  rows : Nat
  cols : Nat
  entry : Nat → Nat → α

/-- build_adj_matrix body of one loop iteration (app.py lines 102-107): an
edge with at least two components and both indices in range sets the two
symmetric entries to 1.0; any other entry of the edge list is ignored. -/
def add_edge (n : Nat) (A : Nat → Nat → ℚ) (e : List Int) : Nat → Nat → ℚ :=
  match e with
  | i :: j :: _ =>
    if 0 ≤ i ∧ i < (n : Int) ∧ 0 ≤ j ∧ j < (n : Int) then
      fun a b =>
        if (a = i.toNat ∧ b = j.toNat) ∨ (a = j.toNat ∧ b = i.toNat) then 1 else A a b
    else A
  | _ => A

/-- Does build_adj_matrix use this entry of the edge list at all? -/
def edge_in_range (n : Nat) (e : List Int) : Bool :=
  match e with
  | i :: j :: _ => decide (0 ≤ i ∧ i < (n : Int) ∧ 0 ≤ j ∧ j < (n : Int))
  | _ => false

/-- app.py build_adj_matrix: zeros, the edge loop, then 1.0 on the diagonal
(self loops). -/
def build_adj_matrix (n : Nat) (edges : List (List Int)) : Mat ℚ :=
  let A := edges.foldl (add_edge n) (fun _ _ => 0)
  ⟨n, n, fun a b => if a = b ∧ a < n then 1 else A a b⟩

/-- np.min of a 1-D array (value at [] is irrelevant: numpy raises there and
every caller guards). -/
def np_min : List ℚ → ℚ
  | [] => 0
  | a :: rest => rest.foldl min a

/-- np.max of a 1-D array (value at [] is irrelevant, as for np_min). -/
def np_max : List ℚ → ℚ
  | [] => 0
  | a :: rest => rest.foldl max a

/-- app.py normalize_scores: min-max rescaling to 0-100, with all entries sent
to 50.0 when the spread is below the 1e-6 tolerance.  numpy .min() raises on
an empty array. -/
def normalize_scores (scores : List ℚ) : Except PyExn (List ℚ) :=
  match scores with
  | [] => .error (.valueError "zero-size array to reduction operation minimum")
  | _ :: _ =>
    let s_min := np_min scores
    let s_max := np_max scores
    if s_max - s_min < 1 / 1000000 then .ok (scores.map fun _ => 50)
    else .ok (scores.map fun s => 100 * (s - s_min) / (s_max - s_min))

/-- Row-sum degree vector D = np.sum(A, axis=1) of app.py normalize_adj. -/
def row_degree {α : Type} [AddCommMonoid α] (A : Mat α) (i : Nat) : α :=
  ∑ j ∈ Finset.range A.cols, A.entry i j

/-- app.py normalize_adj: D^(-1/2) A D^(-1/2) with
D_inv_sqrt = np.where(D > 0, 1.0/np.sqrt(D), 0.0).  Parametric in the
square-root function so that the definition stays usable both at ℚ (endpoint
plumbing, square root as an oracle) and at ℝ with Real.sqrt (the theorem). -/
def normalize_adj {α : Type} [LinearOrderedField α] (sqrt : α → α) (A : Mat α) : Mat α :=
  let D_inv_sqrt : Nat → α := fun i => if 0 < row_degree A i then 1 / sqrt (row_degree A i) else 0
  ⟨A.rows, A.cols, fun i j => D_inv_sqrt i * A.entry i j * D_inv_sqrt j⟩

/-! ### Helper lemmas about list folds for min/max -/

theorem foldl_min_le_init (rest : List ℚ) : ∀ a : ℚ, rest.foldl min a ≤ a := by
  induction rest with
  | nil => intro a; exact le_refl a
  | cons b t ih =>
    intro a
    calc (b :: t).foldl min a = t.foldl min (min a b) := rfl
    _ ≤ min a b := ih (min a b)
    _ ≤ a := min_le_left a b

theorem foldl_min_le_mem (rest : List ℚ) :
    ∀ a x : ℚ, x ∈ rest → rest.foldl min a ≤ x := by
  induction rest with
  | nil => intro a x hx; cases hx
  | cons b t ih =>
    intro a x hx
    rcases List.mem_cons.mp hx with h | h
    · subst h
      calc (x :: t).foldl min a = t.foldl min (min a x) := rfl
      _ ≤ min a x := foldl_min_le_init t (min a x)
      _ ≤ x := min_le_right a x
    · exact ih (min a b) x h

theorem foldl_min_mem (rest : List ℚ) :
    ∀ a : ℚ, rest.foldl min a = a ∨ rest.foldl min a ∈ rest := by
  induction rest with
  | nil => intro a; exact Or.inl rfl
  | cons b t ih =>
    intro a
    rcases ih (min a b) with h | h
    · rcases min_choice a b with hm | hm
      · exact Or.inl (by rw [show (b :: t).foldl min a = t.foldl min (min a b) from rfl, h, hm])
      · refine Or.inr (List.mem_cons.mpr (Or.inl ?_))
        rw [show (b :: t).foldl min a = t.foldl min (min a b) from rfl, h, hm]
    · exact Or.inr (List.mem_cons.mpr (Or.inr h))

theorem foldl_max_init_le (rest : List ℚ) : ∀ a : ℚ, a ≤ rest.foldl max a := by
  induction rest with
  | nil => intro a; exact le_refl a
  | cons b t ih =>
    intro a
    calc a ≤ max a b := le_max_left a b
    _ ≤ t.foldl max (max a b) := ih (max a b)
    _ = (b :: t).foldl max a := rfl

theorem foldl_max_mem_le (rest : List ℚ) :
    ∀ a x : ℚ, x ∈ rest → x ≤ rest.foldl max a := by
  induction rest with
  | nil => intro a x hx; cases hx
  | cons b t ih =>
    intro a x hx
    rcases List.mem_cons.mp hx with h | h
    · subst h
      calc x ≤ max a x := le_max_right a x
      _ ≤ t.foldl max (max a x) := foldl_max_init_le t (max a x)
      _ = (x :: t).foldl max a := rfl
    · exact ih (max a b) x h

theorem foldl_max_mem (rest : List ℚ) :
    ∀ a : ℚ, rest.foldl max a = a ∨ rest.foldl max a ∈ rest := by
  induction rest with
  | nil => intro a; exact Or.inl rfl
  | cons b t ih =>
    intro a
    rcases ih (max a b) with h | h
    · rcases max_choice a b with hm | hm
      · exact Or.inl (by rw [show (b :: t).foldl max a = t.foldl max (max a b) from rfl, h, hm])
      · refine Or.inr (List.mem_cons.mpr (Or.inl ?_))
        rw [show (b :: t).foldl max a = t.foldl max (max a b) from rfl, h, hm]
    · exact Or.inr (List.mem_cons.mpr (Or.inr h))

theorem np_min_le_of_mem {l : List ℚ} {x : ℚ} (hx : x ∈ l) : np_min l ≤ x := by
  cases l with
  | nil => cases hx
  | cons a rest =>
    rcases List.mem_cons.mp hx with h | h
    · subst h; exact foldl_min_le_init rest x
    · exact foldl_min_le_mem rest a x h

theorem le_np_max_of_mem {l : List ℚ} {x : ℚ} (hx : x ∈ l) : x ≤ np_max l := by
  cases l with
  | nil => cases hx
  | cons a rest =>
    rcases List.mem_cons.mp hx with h | h
    · subst h; exact foldl_max_init_le rest x
    · exact foldl_max_mem_le rest a x h

theorem np_min_mem (a : ℚ) (rest : List ℚ) : np_min (a :: rest) ∈ a :: rest := by
  rcases foldl_min_mem rest a with h | h
  · rw [show np_min (a :: rest) = rest.foldl min a from rfl, h]; exact List.mem_cons_self a rest
  · exact List.mem_cons.mpr (Or.inr (by rw [show np_min (a :: rest) = rest.foldl min a from rfl]; exact h))

theorem np_max_mem (a : ℚ) (rest : List ℚ) : np_max (a :: rest) ∈ a :: rest := by
  rcases foldl_max_mem rest a with h | h
  · rw [show np_max (a :: rest) = rest.foldl max a from rfl, h]; exact List.mem_cons_self a rest
  · exact List.mem_cons.mpr (Or.inr (by rw [show np_max (a :: rest) = rest.foldl max a from rfl]; exact h))

/-! ### C4: normalize_scores -/

/-- C4: for every non-empty raw score vector, normalize_scores succeeds and
returns a list of the same length with every entry in [0,100]; when the spread
max - min is below the 1e-6 tolerance every entry is exactly 50; otherwise the
output is the min-max rescaling, under which the minimum (an element of the
input) maps to 0 and the maximum to 100. -/
theorem C4_normalize_scores_bounds (a : ℚ) (rest : List ℚ) :
    ∃ out, normalize_scores (a :: rest) = .ok out ∧
      out.length = (a :: rest).length ∧
      (∀ y ∈ out, 0 ≤ y ∧ y ≤ 100) ∧
      (np_max (a :: rest) - np_min (a :: rest) < 1 / 1000000 → ∀ y ∈ out, y = 50) ∧
      (1 / 1000000 ≤ np_max (a :: rest) - np_min (a :: rest) →
        out = (a :: rest).map
          (fun s => 100 * (s - np_min (a :: rest)) / (np_max (a :: rest) - np_min (a :: rest))) ∧
        np_min (a :: rest) ∈ (a :: rest) ∧ np_max (a :: rest) ∈ (a :: rest) ∧
        100 * (np_min (a :: rest) - np_min (a :: rest)) /
          (np_max (a :: rest) - np_min (a :: rest)) = 0 ∧
        100 * (np_max (a :: rest) - np_min (a :: rest)) /
          (np_max (a :: rest) - np_min (a :: rest)) = 100) := by
  set l := a :: rest with hl
  set m := np_min l with hm
  set M := np_max l with hM
  by_cases hspread : M - m < 1 / 1000000
  · refine ⟨l.map fun _ => 50, ?_, ?_, ?_, ?_, ?_⟩
    · show normalize_scores l = _
      rw [hl]
      show (if np_max (a :: rest) - np_min (a :: rest) < 1 / 1000000 then
          Except.ok ((a :: rest).map fun _ => 50)
        else Except.ok ((a :: rest).map fun s =>
          100 * (s - np_min (a :: rest)) / (np_max (a :: rest) - np_min (a :: rest)))) = _
      rw [if_pos (by rw [← hl, ← hm, ← hM]; exact hspread)]
    · simp
    · intro y hy
      rcases List.mem_map.mp hy with ⟨s, _, hs⟩
      constructor <;> rw [← hs] <;> norm_num
    · intro _ y hy
      rcases List.mem_map.mp hy with ⟨s, _, hs⟩
      exact hs.symm
    · intro hge
      exact absurd hspread (not_lt.mpr hge)
  · have hge : 1 / 1000000 ≤ M - m := not_lt.mp hspread
    have hpos : 0 < M - m := lt_of_lt_of_le (by norm_num) hge
    have hne : M - m ≠ 0 := ne_of_gt hpos
    refine ⟨l.map fun s => 100 * (s - m) / (M - m), ?_, ?_, ?_, ?_, ?_⟩
    · show normalize_scores l = _
      rw [hl]
      show (if np_max (a :: rest) - np_min (a :: rest) < 1 / 1000000 then
          Except.ok ((a :: rest).map fun _ => 50)
        else Except.ok ((a :: rest).map fun s =>
          100 * (s - np_min (a :: rest)) / (np_max (a :: rest) - np_min (a :: rest)))) = _
      rw [if_neg (by rw [← hl, ← hm, ← hM]; exact hspread)]
    · simp
    · intro y hy
      rcases List.mem_map.mp hy with ⟨s, hsmem, hs⟩
      have h1 : m ≤ s := np_min_le_of_mem hsmem
      have h2 : s ≤ M := le_np_max_of_mem hsmem
      constructor
      · rw [← hs]
        apply div_nonneg _ (le_of_lt hpos)
        have : 0 ≤ s - m := sub_nonneg.mpr h1
        nlinarith
      · rw [← hs]
        rw [div_le_iff₀ hpos]
        nlinarith
    · intro hlt
      exact absurd hlt hspread
    · intro _
      refine ⟨rfl, np_min_mem a rest, np_max_mem a rest, ?_, ?_⟩
      · simp
      · rw [mul_div_assoc, div_self hne, mul_one]

/-! ### C5: build_adj_matrix -/

theorem add_edge_cons (n : Nat) (A : Nat → Nat → ℚ) (i j : Int) (t : List Int) :
    add_edge n A (i :: j :: t) =
      if 0 ≤ i ∧ i < (n : Int) ∧ 0 ≤ j ∧ j < (n : Int) then
        (fun a b =>
          if (a = i.toNat ∧ b = j.toNat) ∨ (a = j.toNat ∧ b = i.toNat) then 1 else A a b)
      else A := rfl

theorem add_edge_preserves (n : Nat) (A : Nat → Nat → ℚ) (e : List Int)
    (hsym : ∀ a b, A a b = A b a) (h01 : ∀ a b, A a b = 0 ∨ A a b = 1) :
    (∀ a b, add_edge n A e a b = add_edge n A e b a) ∧
    (∀ a b, add_edge n A e a b = 0 ∨ add_edge n A e a b = 1) := by
  match e with
  | [] => exact ⟨hsym, h01⟩
  | [_] => exact ⟨hsym, h01⟩
  | i :: j :: t =>
    rw [add_edge_cons]
    by_cases hr : 0 ≤ i ∧ i < (n : Int) ∧ 0 ≤ j ∧ j < (n : Int)
    · rw [if_pos hr]
      constructor
      · intro a b
        by_cases hc : (a = i.toNat ∧ b = j.toNat) ∨ (a = j.toNat ∧ b = i.toNat)
        · rw [if_pos hc, if_pos (by tauto)]
        · rw [if_neg hc, if_neg (by tauto), hsym a b]
      · intro a b
        by_cases hc : (a = i.toNat ∧ b = j.toNat) ∨ (a = j.toNat ∧ b = i.toNat)
        · rw [if_pos hc]; exact Or.inr rfl
        · rw [if_neg hc]; exact h01 a b
    · rw [if_neg hr]; exact ⟨hsym, h01⟩

theorem foldl_add_edge_preserves (n : Nat) (edges : List (List Int)) :
    ∀ A : Nat → Nat → ℚ, (∀ a b, A a b = A b a) → (∀ a b, A a b = 0 ∨ A a b = 1) →
      (∀ a b, (edges.foldl (add_edge n) A) a b = (edges.foldl (add_edge n) A) b a) ∧
      (∀ a b, (edges.foldl (add_edge n) A) a b = 0 ∨ (edges.foldl (add_edge n) A) a b = 1) := by
  induction edges with
  | nil => intro A hsym h01; exact ⟨hsym, h01⟩
  | cons e t ih =>
    intro A hsym h01
    have h := add_edge_preserves n A e hsym h01
    exact ih (add_edge n A e) h.1 h.2

theorem add_edge_skip (n : Nat) (A : Nat → Nat → ℚ) (e : List Int)
    (h : edge_in_range n e = false) : add_edge n A e = A := by
  match e with
  | [] => rfl
  | [_] => rfl
  | i :: j :: t =>
    rw [add_edge_cons, if_neg]
    intro hc
    rw [show edge_in_range n (i :: j :: t) =
      decide (0 ≤ i ∧ i < (n : Int) ∧ 0 ≤ j ∧ j < (n : Int)) from rfl] at h
    exact absurd hc (of_decide_eq_false h)

theorem foldl_add_edge_filter (n : Nat) (edges : List (List Int)) :
    ∀ A : Nat → Nat → ℚ,
      edges.foldl (add_edge n) A = (edges.filter (edge_in_range n)).foldl (add_edge n) A := by
  induction edges with
  | nil => intro A; rfl
  | cons e t ih =>
    intro A
    by_cases h : edge_in_range n e
    · rw [List.foldl_cons, List.filter_cons_of_pos h, List.foldl_cons]
      exact ih (add_edge n A e)
    · rw [List.foldl_cons, List.filter_cons_of_neg (by simpa using h),
        add_edge_skip n A e (by simpa using h)]
      exact ih A

/-- C5: build_adj_matrix always returns an n-by-n matrix that is symmetric,
has 1 on every diagonal entry, has every entry 0 or 1, and is unchanged when
the out-of-range or too-short entries of the edge list are dropped: they are
ignored rather than raising. -/
theorem C5_build_adj_matrix_wellformed (n : Nat) (edges : List (List Int)) :
    (build_adj_matrix n edges).rows = n ∧ (build_adj_matrix n edges).cols = n ∧
    (∀ a b, (build_adj_matrix n edges).entry a b = (build_adj_matrix n edges).entry b a) ∧
    (∀ a, a < n → (build_adj_matrix n edges).entry a a = 1) ∧
    (∀ a b, (build_adj_matrix n edges).entry a b = 0 ∨ (build_adj_matrix n edges).entry a b = 1) ∧
    build_adj_matrix n edges = build_adj_matrix n (edges.filter (edge_in_range n)) := by
  have base_sym : ∀ a b : Nat, (fun _ _ => (0 : ℚ)) a b = (fun _ _ => (0 : ℚ)) b a :=
    fun _ _ => rfl
  have base01 : ∀ a b : Nat, (fun _ _ => (0 : ℚ)) a b = 0 ∨ (fun _ _ => (0 : ℚ)) a b = 1 :=
    fun _ _ => Or.inl rfl
  have h := foldl_add_edge_preserves n edges (fun _ _ => 0) base_sym base01
  refine ⟨rfl, rfl, ?_, ?_, ?_, ?_⟩
  · intro a b
    show (if a = b ∧ a < n then 1 else _) = (if b = a ∧ b < n then 1 else _)
    by_cases hab : a = b
    · subst hab; rfl
    · rw [if_neg (by tauto), if_neg (by tauto)]
      exact h.1 a b
  · intro a ha
    show (if a = a ∧ a < n then 1 else _) = 1
    rw [if_pos ⟨rfl, ha⟩]
  · intro a b
    show (if a = b ∧ a < n then (1 : ℚ) else _) = 0 ∨ (if a = b ∧ a < n then (1 : ℚ) else _) = 1
    by_cases hab : a = b ∧ a < n
    · rw [if_pos hab]; exact Or.inr rfl
    · rw [if_neg hab]; exact h.2 a b
  · show Mat.mk n n _ = Mat.mk n n _
    rw [foldl_add_edge_filter n edges]

/-! ### C6: normalize_adj never blows up on an isolated node -/

/-- C6: for every adjacency matrix with nonnegative entries, normalize_adj
(with the real square root) is well defined everywhere: a zero-degree row
takes the special-cased inverse square root 0, zeroing that row and the
matching column instead of producing a non-finite value; all entries stay
nonnegative reals; and when every diagonal entry is at least 1 (self-loops
present) the zero-degree branch is unreachable, every row degree being
strictly positive. -/
theorem C6_normalize_adj_isolated_nodes (A : Mat ℝ) :
    (∀ i, row_degree A i = 0 →
      ∀ j, (normalize_adj Real.sqrt A).entry i j = 0 ∧ (normalize_adj Real.sqrt A).entry j i = 0) ∧
    ((∀ i j, i < A.rows → j < A.cols → 0 ≤ A.entry i j) →
      ∀ i j, i < A.rows → j < A.cols → 0 ≤ (normalize_adj Real.sqrt A).entry i j) ∧
    (A.rows = A.cols → (∀ i j, i < A.rows → j < A.cols → 0 ≤ A.entry i j) →
      (∀ i, i < A.rows → 1 ≤ A.entry i i) →
      ∀ i, i < A.rows → 0 < row_degree A i) := by
  have hentry : ∀ i j, (normalize_adj Real.sqrt A).entry i j =
      (if 0 < row_degree A i then 1 / Real.sqrt (row_degree A i) else 0) * A.entry i j *
      (if 0 < row_degree A j then 1 / Real.sqrt (row_degree A j) else 0) :=
    fun _ _ => rfl
  have hinv_nonneg : ∀ i,
      0 ≤ (if 0 < row_degree A i then 1 / Real.sqrt (row_degree A i) else 0) := by
    intro i
    by_cases h : 0 < row_degree A i
    · rw [if_pos h]
      exact div_nonneg zero_le_one (Real.sqrt_nonneg _)
    · rw [if_neg h]
  refine ⟨?_, ?_, ?_⟩
  · intro i hDi j
    have hzero : (if 0 < row_degree A i then 1 / Real.sqrt (row_degree A i) else 0) = 0 :=
      if_neg (by rw [hDi]; exact lt_irrefl 0)
    constructor
    · rw [hentry i j, hzero]
      ring
    · rw [hentry j i, hzero]
      ring
  · intro hA i j hi hj
    rw [hentry i j]
    exact mul_nonneg (mul_nonneg (hinv_nonneg i) (hA i j hi hj)) (hinv_nonneg j)
  · intro hsq hA hdiag i hi
    have hii : i < A.cols := hsq ▸ hi
    have hle : A.entry i i ≤ row_degree A i := by
      apply Finset.single_le_sum (f := fun j => A.entry i j)
      · intro k hk
        exact hA i k hi (Finset.mem_range.mp hk)
      · exact Finset.mem_range.mpr hii
    exact lt_of_lt_of_le (lt_of_lt_of_le one_pos (hdiag i hi)) hle

/-- C6 witness: a concrete 2-by-2 all-ones matrix with self-loops; its rows
all have strictly positive degree, so the zero-degree branch is not taken. -/
theorem C6_witness_all_ones :
    (Mat.mk 2 2 (fun _ _ => (1 : ℝ))).rows = (Mat.mk 2 2 (fun _ _ => (1 : ℝ))).cols ∧
    (∀ i, i < (Mat.mk 2 2 (fun _ _ => (1 : ℝ))).rows →
      0 < row_degree (Mat.mk 2 2 (fun _ _ => (1 : ℝ))) i) := by
  refine ⟨rfl, ?_⟩
  exact (C6_normalize_adj_isolated_nodes (Mat.mk 2 2 (fun _ _ => (1 : ℝ)))).2.2 rfl
    (fun _ _ _ _ => zero_le_one) (fun _ _ => le_refl 1)

/-! ### Graph-source selection for /gcn/advanced (C7) -/

/-- Python truthiness of an Optional list field: None and the empty list are
both falsy, so `if req.adjacency:` runs only for a supplied non-empty list. -/
def py_truthy {α : Type} : Option (List α) → Bool
  | none => false
  | some l => !l.isEmpty

/-- Which graph source the if/elif chain of gcn_advanced (app.py lines
274-285) selects. -/
inductive GraphChoice where
  | explicitAdj
  | correlation
  | knn
  | fullyConnected
deriving DecidableEq, Repr

/-- The if/elif chain of gcn_advanced: `if req.adjacency: ... elif
req.returns: ... elif req.use_knn_graph: ... else: fully connected`. -/
def advanced_graph_choice (adjacency : Option (List (List Int)))
    (returns : Option (List (List ℚ))) (use_knn_graph : Bool) : GraphChoice :=
  if py_truthy adjacency then .explicitAdj
  else if py_truthy returns then .correlation
  else if use_knn_graph then .knn
  else .fullyConnected

/-- C7 counterexample: a request that explicitly supplies an (empty) adjacency
edge list together with a returns matrix is served from the correlation graph,
not from the supplied adjacency: Python truthiness skips the empty list, so
the claimed priority "explicitly supplied adjacency first" fails. -/
theorem C7_counterexample_empty_adjacency :
    (some ([] : List (List Int))).isSome = true ∧
    advanced_graph_choice (some ([] : List (List Int))) (some [[1]]) false =
      GraphChoice.correlation ∧
    advanced_graph_choice (some ([] : List (List Int))) (some [[1]]) false ≠
      GraphChoice.explicitAdj := by
  refine ⟨rfl, rfl, ?_⟩
  intro h
  exact GraphChoice.noConfusion (rfl.trans h : GraphChoice.correlation = GraphChoice.explicitAdj)

/-- C7 amended: exactly one graph source is selected per request, in priority
order explicit adjacency, then correlation, then k-NN, then fully connected,
where "supplied" is Python truthiness: a present AND non-empty list.  A
supplied empty adjacency (or returns) list is skipped like an absent one. -/
theorem C7_graph_source_priority (adjacency : Option (List (List Int)))
    (returns : Option (List (List ℚ))) (use_knn_graph : Bool) :
    (py_truthy adjacency = true →
      advanced_graph_choice adjacency returns use_knn_graph = .explicitAdj) ∧
    (py_truthy adjacency = false → py_truthy returns = true →
      advanced_graph_choice adjacency returns use_knn_graph = .correlation) ∧
    (py_truthy adjacency = false → py_truthy returns = false → use_knn_graph = true →
      advanced_graph_choice adjacency returns use_knn_graph = .knn) ∧
    (py_truthy adjacency = false → py_truthy returns = false → use_knn_graph = false →
      advanced_graph_choice adjacency returns use_knn_graph = .fullyConnected) ∧
    (∀ l : List (List Int), py_truthy (some l) = true ↔ l ≠ []) ∧
    py_truthy (α := List Int) none = false := by
  refine ⟨?_, ?_, ?_, ?_, ?_, rfl⟩
  · intro h
    unfold advanced_graph_choice
    rw [if_pos h]
  · intro h1 h2
    unfold advanced_graph_choice
    rw [if_neg (by rw [h1]; exact Bool.false_ne_true), if_pos h2]
  · intro h1 h2 h3
    unfold advanced_graph_choice
    rw [if_neg (by rw [h1]; exact Bool.false_ne_true),
      if_neg (by rw [h2]; exact Bool.false_ne_true), if_pos h3]
  · intro h1 h2 h3
    unfold advanced_graph_choice
    rw [if_neg (by rw [h1]; exact Bool.false_ne_true),
      if_neg (by rw [h2]; exact Bool.false_ne_true),
      if_neg (by rw [h3]; exact Bool.false_ne_true)]
  · intro l
    show (!l.isEmpty) = true ↔ l ≠ []
    cases l with
    | nil => simp
    | cons a t => simp

/-! ### Request models and validation bounds (C3) -/

/-- GCNRequest of app.py (the /gcn/predict payload): plain typed fields, no
Field(...) bounds on train_epochs. -/
structure GCNRequest where
  nodes : List String
  features : List (List ℚ)
  adjacency : List (List Int)
  train_epochs : Int
deriving Repr

/-- AdvancedGCNRequest of app.py: every numeric field carries pydantic
Field(ge=..., le=...) bounds. -/
structure AdvancedGCNRequest where
  nodes : List String
  features : List (List ℚ)
  adjacency : Option (List (List Int))
  returns : Option (List (List ℚ))
  model_type : String
  train_epochs : Int
  hidden_dim : Int
  dropout : ℚ
  learning_rate : ℚ
  correlation_threshold : ℚ
  use_knn_graph : Bool
  knn_k : Int

/-- MultiModelRequest of app.py (the /gcn/compare payload): train_epochs is a
plain int with no bounds. -/
structure MultiModelRequest where
  nodes : List String
  features : List (List ℚ)
  adjacency : Option (List (List Int))
  model_types : List String
  train_epochs : Int
  returns : Option (List (List ℚ))

/-- StockClusterRequest of app.py: n_clusters carries Field(ge=2, le=20). -/
structure StockClusterRequest where
  nodes : List String
  features : List (List ℚ)
  n_clusters : Int
deriving Repr

/-- FeatureImportanceRequest of app.py: no numeric field at all. -/
structure FeatureImportanceRequest where
  nodes : List String
  features : List (List ℚ)
  feature_names : List String
  adjacency : List (List Int)
deriving Repr

/-- Pydantic validation of GCNRequest numeric fields: train_epochs has no
Field constraint, so every integer passes. -/
def GCNRequest.valid (_r : GCNRequest) : Bool := true

/-- Pydantic validation of MultiModelRequest numeric fields: train_epochs has
no Field constraint, so every integer passes. -/
def MultiModelRequest.valid (_r : MultiModelRequest) : Bool := true

/-- Pydantic validation of AdvancedGCNRequest numeric fields, from the
Field(ge, le) bounds of app.py lines 65-71. -/
def AdvancedGCNRequest.valid (r : AdvancedGCNRequest) : Bool :=
  decide (0 ≤ r.train_epochs) && decide (r.train_epochs ≤ 500) &&
  decide (8 ≤ r.hidden_dim) && decide (r.hidden_dim ≤ 256) &&
  decide (0 ≤ r.dropout) && decide (r.dropout ≤ 1 / 2) &&
  decide (1 / 10000 ≤ r.learning_rate) && decide (r.learning_rate ≤ 1 / 10) &&
  decide (0 ≤ r.correlation_threshold) && decide (r.correlation_threshold ≤ 1) &&
  decide (1 ≤ r.knn_k) && decide (r.knn_k ≤ 20)

/-- Pydantic validation of StockClusterRequest numeric fields: Field(ge=2,
le=20) on n_clusters. -/
def StockClusterRequest.valid (r : StockClusterRequest) : Bool :=
  decide (2 ≤ r.n_clusters) && decide (r.n_clusters ≤ 20)

/-- The FastAPI validation boundary: a request whose model validation fails is
answered with the framework client error 422 before the handler body runs. -/
def fastapi_validate {α : Type} (valid : Bool) (body : Except HTTPError α) :
    Except HTTPError α :=
  if valid then body else .error ⟨422, "request validation error"⟩

/-- C3 counterexample: train_epochs=501 (and any huge value) passes validation
on /gcn/predict and /gcn/compare, because GCNRequest and MultiModelRequest
declare train_epochs as a plain int with no Field bounds; the claim that
train_epochs is bounded to 0-500 on every endpoint that accepts it fails. -/
theorem C3_counterexample_unbounded_train_epochs :
    GCNRequest.valid ⟨["A"], [[1]], [], 501⟩ = true ∧
    (500 : Int) < 501 ∧
    fastapi_validate (GCNRequest.valid ⟨["A"], [[1]], [], 501⟩)
      (Except.ok ()) = Except.ok () ∧
    MultiModelRequest.valid ⟨["A"], [[1]], none, ["simple"], 100000, none⟩ = true := by
  exact ⟨rfl, by decide, rfl, rfl⟩

/-- C3 amended: the numeric fields of AdvancedGCNRequest and
StockClusterRequest carry explicit validation bounds (train_epochs 0-500 on
/gcn/advanced, hidden_dim 8-256, dropout 0-0.5, learning_rate 0.0001-0.1,
correlation_threshold 0-1, knn_k 1-20, n_clusters 2-20) and a failing bound is
answered with the framework client error before the handler runs; but the
train_epochs fields of GCNRequest (/gcn/predict) and MultiModelRequest
(/gcn/compare) carry no bounds at all, so every integer passes validation
there. -/
theorem C3_validation_bounds :
    (∀ r : GCNRequest, GCNRequest.valid r = true) ∧
    (∀ r : MultiModelRequest, MultiModelRequest.valid r = true) ∧
    (∀ r : AdvancedGCNRequest, AdvancedGCNRequest.valid r = true ↔
      (0 ≤ r.train_epochs ∧ r.train_epochs ≤ 500 ∧
       8 ≤ r.hidden_dim ∧ r.hidden_dim ≤ 256 ∧
       0 ≤ r.dropout ∧ r.dropout ≤ 1 / 2 ∧
       1 / 10000 ≤ r.learning_rate ∧ r.learning_rate ≤ 1 / 10 ∧
       0 ≤ r.correlation_threshold ∧ r.correlation_threshold ≤ 1 ∧
       1 ≤ r.knn_k ∧ r.knn_k ≤ 20)) ∧
    (∀ r : StockClusterRequest, StockClusterRequest.valid r = true ↔
      (2 ≤ r.n_clusters ∧ r.n_clusters ≤ 20)) ∧
    (∀ resp : Except HTTPError Unit,
      fastapi_validate false resp = .error ⟨422, "request validation error"⟩) := by
  refine ⟨fun _ => rfl, fun _ => rfl, ?_, ?_, fun _ => rfl⟩
  · intro r
    unfold AdvancedGCNRequest.valid
    simp only [Bool.and_eq_true, decide_eq_true_eq, and_assoc]
  · intro r
    unfold StockClusterRequest.valid
    simp only [Bool.and_eq_true, decide_eq_true_eq]

/-! ### create_model and the keyword arguments gcn_advanced passes (C1) -/

/-- The model registry keys of create_model in model.py. -/
def supported_model_types : List String := ["simple", "deep", "gat", "hybrid", "temporal"]

/-- Keyword parameters (besides the positional in_feats) accepted by each
model constructor in model.py: SimpleGCN(in_feats, hidden, out_feats),
DeepGCN(in_feats, hidden_dims, out_feats, dropout, use_bn), GATModel(in_feats,
hidden, out_feats, heads, dropout), HybridGCN(in_feats, gcn_hidden,
lstm_hidden, out_feats, dropout), TemporalGCN(in_feats, seq_len, hidden,
out_feats, num_layers, dropout). -/
def ctor_keywords (model_type : String) : List String :=
  if model_type = "simple" then ["hidden", "out_feats"]
  else if model_type = "deep" then ["hidden_dims", "out_feats", "dropout", "use_bn"]
  else if model_type = "gat" then ["hidden", "out_feats", "heads", "dropout"]
  else if model_type = "hybrid" then ["gcn_hidden", "lstm_hidden", "out_feats", "dropout"]
  else if model_type = "temporal" then ["seq_len", "hidden", "out_feats", "num_layers", "dropout"]
  else []

/-- create_model of model.py: an unknown type raises ValueError; a known type
calls its constructor with the given keyword argument names, and Python
raises TypeError at a keyword the constructor does not accept.  The caller in
gcn_advanced passes hidden, hidden_dims and dropout explicitly on every call
(a None value is still a passed keyword), so the keyword list is the same for
every model type there. -/
def create_model (model_type : String) (kwargs : List String) : Except PyExn Unit :=
  if supported_model_types.contains model_type then
    match kwargs.find? (fun k => !(ctor_keywords model_type).contains k) with
    | some k => .error (.typeError ("init got an unexpected keyword argument " ++ k))
    | none => .ok ()
  else .error (.valueError ("Unknown model type: " ++ model_type))

/-- The keyword argument names gcn_advanced passes to create_model on every
request (app.py lines 294-300): the conditionals select the values, but the
keywords hidden, hidden_dims and dropout are always present. -/
def advanced_model_kwargs : List String := ["hidden", "hidden_dims", "dropout"]

/-! ### Shared response plumbing -/

/-- The `{nodes[i]: float(norm_scores[i]) for i in range(n)}` dict build;
Python raises IndexError when either list is shorter than n. -/
def scores_dict (nodes : List String) (norm_scores : List ℚ) (n : Nat) :
    Except PyExn (List (String × ℚ)) :=
  (List.range n).mapM fun i =>
    match nodes[i]?, norm_scores[i]? with
    | some nm, some v => Except.ok (nm, v)
    | _, _ => Except.error (PyExn.indexError "list index out of range")

/-- Python sorted(..., key=score, reverse=True): stable descending sort on the
second component. -/
def sort_desc_by_score (l : List (String × ℚ)) : List (String × ℚ) :=
  l.mergeSort (fun p q => decide (q.2 ≤ p.2))

/-- A.sum() over the shape of the matrix. -/
def mat_sum (A : Mat ℚ) : ℚ :=
  ∑ i ∈ Finset.range A.rows, ∑ j ∈ Finset.range A.cols, A.entry i j

/-- np.eye(n). -/
def np_eye (n : Nat) : Mat ℚ := ⟨n, n, fun i j => if i = j ∧ i < n then 1 else 0⟩

/-- np.ones((n, n)): the fully connected fallback graph. -/
def np_ones (n : Nat) : Mat ℚ := ⟨n, n, fun _ _ => 1⟩

/-- numpy elementwise addition of two 2-D arrays, with broadcasting of a
degenerate (length-1) axis; incompatible shapes raise ValueError. -/
def np_add (A B : Mat ℚ) : Except PyExn (Mat ℚ) :=
  if (A.rows = B.rows ∨ A.rows = 1 ∨ B.rows = 1) ∧
     (A.cols = B.cols ∨ A.cols = 1 ∨ B.cols = 1) then
    .ok ⟨max A.rows B.rows, max A.cols B.cols, fun i j =>
      A.entry (if A.rows = 1 then 0 else i) (if A.cols = 1 then 0 else j) +
      B.entry (if B.rows = 1 then 0 else i) (if B.cols = 1 then 0 else j)⟩
  else .error (.valueError "operands could not be broadcast together")

/-- model.py build_correlation_graph, with np.corrcoef(returns) supplied as
an oracle (external numerical library): threshold the absolute correlations
strictly, then np.fill_diagonal(adj, 0).  The matrix is m-by-m for m rows of
the returns argument. -/
def build_correlation_graph (corrcoef : Nat → Nat → ℚ) (m : Nat) (threshold : ℚ) : Mat ℚ :=
  ⟨m, m, fun i j => if i = j then 0 else if threshold < |corrcoef i j| then 1 else 0⟩

/-- model.py build_knn_graph, with the sklearn kneighbors_graph connectivity
matrix supplied as an oracle: symmetrize by np.maximum(adj, adj.T). -/
def build_knn_graph (skl : Mat ℚ) : Mat ℚ :=
  ⟨skl.rows, skl.cols, fun i j => max (skl.entry i j) (skl.entry j i)⟩

/-! ### /gcn/advanced endpoint (C1) -/

/-- One ranking row of the /gcn/advanced response. -/
structure RankEntry where
  rank : Nat
  node : String
  score : ℚ
deriving Repr

/-- The info object of the /gcn/advanced response (training history of the
oracle-abstracted training loop omitted; n_edges is A.sum() - n, exact here
where the source casts it with int()). -/
structure AdvancedInfo where
  n_nodes : Nat
  n_features : Nat
  n_edges : ℚ
  train_epochs : Int
deriving Repr

/-- The /gcn/advanced success response. -/
structure AdvancedResponse where
  scores : List (String × ℚ)
  ranking : List RankEntry
  model_type : String
  info : AdvancedInfo
deriving Repr

/-- gcn_advanced body (app.py lines 262-332), before the try/except wrapper.
Oracles: corrcoef is np.corrcoef of the returns matrix, skl_knn the sklearn
kneighbors_graph result (an Except: sklearn raises for k at or above the
sample count), sqrtO the float square root in normalize_adj, and raw_scores
the forward pass output of the freshly initialised model.  Training
(train_model) mutates only the random weights, which raw_scores abstracts. -/
def gcn_advanced_body (req : AdvancedGCNRequest) (corrcoef : Nat → Nat → ℚ)
    (skl_knn : Except PyExn (Mat ℚ)) (sqrtO : ℚ → ℚ) (raw_scores : List ℚ) :
    Except PyExn AdvancedResponse := do
  let (n, f) ← np_shape_unpack2 req.features
  if n = 0 then
    throw (.http 400 "No nodes provided")
  let A ← match advanced_graph_choice req.adjacency req.returns req.use_knn_graph with
    | .explicitAdj => pure (build_adj_matrix n (req.adjacency.getD []))
    | .correlation =>
      np_add (build_correlation_graph corrcoef (req.returns.getD []).length
        req.correlation_threshold) (np_eye n)
    | .knn => do
      let skl ← skl_knn
      np_add (build_knn_graph skl) (np_eye n)
    | .fullyConnected => pure (np_ones n)
  let _A_norm := normalize_adj sqrtO A
  let _ ← create_model req.model_type advanced_model_kwargs
  let norm_scores ← normalize_scores raw_scores
  let scores ← scores_dict req.nodes norm_scores n
  let ranked := sort_desc_by_score scores
  pure ⟨scores,
    ranked.enum.map (fun p => ⟨p.1 + 1, p.2.1, p.2.2⟩),
    req.model_type,
    ⟨n, f, mat_sum A - n, req.train_epochs⟩⟩

/-- The /gcn/advanced endpoint: body inside the blanket try/except. -/
def gcn_advanced (req : AdvancedGCNRequest) (corrcoef : Nat → Nat → ℚ)
    (skl_knn : Except PyExn (Mat ℚ)) (sqrtO : ℚ → ℚ) (raw_scores : List ℚ) :
    Except HTTPError AdvancedResponse :=
  handler_wrap (gcn_advanced_body req corrcoef skl_knn sqrtO raw_scores)

/-- A minimal well-formed /gcn/advanced request (two nodes, one feature each,
an explicit edge, all numeric fields at their defaults) with the given model
type. -/
def sample_advanced_request (mt : String) : AdvancedGCNRequest :=
  ⟨["A", "B"], [[1], [2]], some [[0, 1]], none, mt, 50, 32, 1 / 5, 1 / 100, 3 / 10, false, 5⟩

/-- C1: the /gcn/advanced handler passes the keywords hidden, hidden_dims and
dropout to every model constructor, and no constructor of model.py accepts
all three, so every supported model_type makes create_model raise TypeError
and the endpoint answers HTTP 500 instead of the specified success response
with scores, ranking, model_type and info. -/
theorem C1_advanced_endpoint_type_error (corrcoef : Nat → Nat → ℚ)
    (skl_knn : Except PyExn (Mat ℚ)) (sqrtO : ℚ → ℚ) (raw_scores : List ℚ) :
    gcn_advanced (sample_advanced_request "simple") corrcoef skl_knn sqrtO raw_scores =
      .error ⟨500, "init got an unexpected keyword argument hidden_dims"⟩ ∧
    gcn_advanced (sample_advanced_request "deep") corrcoef skl_knn sqrtO raw_scores =
      .error ⟨500, "init got an unexpected keyword argument hidden"⟩ ∧
    gcn_advanced (sample_advanced_request "gat") corrcoef skl_knn sqrtO raw_scores =
      .error ⟨500, "init got an unexpected keyword argument hidden_dims"⟩ ∧
    gcn_advanced (sample_advanced_request "hybrid") corrcoef skl_knn sqrtO raw_scores =
      .error ⟨500, "init got an unexpected keyword argument hidden"⟩ ∧
    gcn_advanced (sample_advanced_request "temporal") corrcoef skl_knn sqrtO raw_scores =
      .error ⟨500, "init got an unexpected keyword argument hidden_dims"⟩ ∧
    (∀ mt ∈ supported_model_types, ∃ k,
      create_model mt advanced_model_kwargs =
        .error (.typeError ("init got an unexpected keyword argument " ++ k))) := by
  refine ⟨rfl, rfl, rfl, rfl, rfl, ?_⟩
  intro mt hmt
  simp only [supported_model_types, List.mem_cons, List.not_mem_nil, or_false] at hmt
  rcases hmt with h | h | h | h | h
  · exact ⟨"hidden_dims", by subst h; rfl⟩
  · exact ⟨"hidden", by subst h; rfl⟩
  · exact ⟨"hidden_dims", by subst h; rfl⟩
  · exact ⟨"hidden", by subst h; rfl⟩
  · exact ⟨"hidden_dims", by subst h; rfl⟩

/-! ### /gcn/cluster and /gcn/importance (C2) -/

/-- The /gcn/cluster success response (produced wholesale by the sklearn
KMeans/PCA computation, which is abstracted as an oracle). -/
structure ClusterResponse where
  node_labels : List (String × Int)
  pca_explained_variance : List ℚ
  n_clusters : Int
deriving Repr

/-- gcn_cluster body (app.py lines 421-479): shape prologue, then the
n_clusters-vs-node-count check raising HTTPException(400) with a message
naming both counts, then the sklearn KMeans/PCA computation (external
library, oracle `sklearn_rest`) reached only when the check passes. -/
def gcn_cluster_body (req : StockClusterRequest)
    (sklearn_rest : Except PyExn ClusterResponse) : Except PyExn ClusterResponse := do
  let (n, _f) ← np_shape_unpack2 req.features
  if (n : Int) < req.n_clusters then
    throw (.http 400 ("節點數 " ++ toString n ++ " 小於聚類數 " ++ toString req.n_clusters))
  sklearn_rest

/-- The /gcn/cluster endpoint: body inside the blanket try/except, which
catches the HTTPException(400) raised by the body and re-raises it as 500. -/
def gcn_cluster (req : StockClusterRequest)
    (sklearn_rest : Except PyExn ClusterResponse) : Except HTTPError ClusterResponse :=
  handler_wrap (gcn_cluster_body req sklearn_rest)

/-- The /gcn/importance success response. -/
structure ImportanceResponse where
  feature_importance : List (String × ℚ)
  top_features : List (String × ℚ)
  method : String
deriving Repr

/-- feature_importance body (app.py lines 485-533): shape prologue, the
feature-name-count check raising HTTPException(400) naming both counts,
graph construction and normalization, then SimpleGCN training plus the
input-gradient computation on the freshly initialised random weights
(abstracted as the oracle `grads`: x.grad.abs().mean(dim=0)), then
normalisation of the gradients to sum 1 and a descending sort. -/
def feature_importance_body (req : FeatureImportanceRequest) (sqrtO : ℚ → ℚ)
    (grads : Except PyExn (List ℚ)) : Except PyExn ImportanceResponse := do
  let (n, f) ← np_shape_unpack2 req.features
  if req.feature_names.length ≠ f then
    throw (.http 400 ("特徵名稱數量 " ++ toString req.feature_names.length ++
      " 與特徵數 " ++ toString f ++ " 不符"))
  let A := build_adj_matrix n req.adjacency
  let _A_norm := normalize_adj sqrtO A
  let g ← grads
  let importance := g.map (fun x => x / g.sum)
  let table ← (List.range f).mapM fun i =>
    match req.feature_names[i]?, importance[i]? with
    | some nm, some v => Except.ok ((nm, v) : String × ℚ)
    | _, _ => Except.error (PyExn.indexError "list index out of range")
  let sorted_table := sort_desc_by_score table
  pure ⟨sorted_table, sorted_table.take 5, "gradient_based"⟩

/-- The /gcn/importance endpoint: body inside the blanket try/except. -/
def feature_importance (req : FeatureImportanceRequest) (sqrtO : ℚ → ℚ)
    (grads : Except PyExn (List ℚ)) : Except HTTPError ImportanceResponse :=
  handler_wrap (feature_importance_body req sqrtO grads)

/-- C2: the cluster-count and feature-name-count validation checks do run
before any sklearn/torch computation starts (the result does not depend on
the computation oracle at all) and their messages name the offending counts,
but both answers reach the client as HTTP 500, not as the claimed 4xx: the
HTTPException(400) raised inside the try block is caught by the blanket
except Exception and re-raised as HTTPException(500, str(e)). -/
theorem C2_validation_errors_come_back_as_500
    (sklearn_rest : Except PyExn ClusterResponse) (sqrtO : ℚ → ℚ)
    (grads : Except PyExn (List ℚ)) :
    gcn_cluster ⟨["A", "B"], [[1], [2]], 5⟩ sklearn_rest =
      .error ⟨500, "400: 節點數 2 小於聚類數 5"⟩ ∧
    feature_importance ⟨["A", "B"], [[1], [2]], ["a", "b", "c"], []⟩ sqrtO grads =
      .error ⟨500, "400: 特徵名稱數量 3 與特徵數 1 不符"⟩ ∧
    (∀ s : Except PyExn ClusterResponse,
      gcn_cluster ⟨["A", "B"], [[1], [2]], 5⟩ s =
        gcn_cluster ⟨["A", "B"], [[1], [2]], 5⟩ sklearn_rest) ∧
    (∀ g : Except PyExn (List ℚ),
      feature_importance ⟨["A", "B"], [[1], [2]], ["a", "b", "c"], []⟩ sqrtO g =
        feature_importance ⟨["A", "B"], [[1], [2]], ["a", "b", "c"], []⟩ sqrtO grads) := by
  exact ⟨rfl, rfl, fun _ => rfl, fun _ => rfl⟩

/-! ### /gcn/compare endpoint (C8) -/

/-- One entry of the /gcn/compare results dict: either scores plus top5, or
the inline error string recorded when that model raised. -/
inductive ModelResult where
  | result (scores : List (String × ℚ)) (top5 : List (String × ℚ))
  | modelError (msg : String)
deriving Repr

/-- One iteration of the gcn_compare model loop (app.py lines 367-388): the
whole per-model computation runs inside its own try, and any exception is
recorded inline as an error entry for that model instead of failing the
request.  Here create_model is called with no extra keyword arguments, and
the forward output of the freshly initialised model is the oracle `fwd`,
Except-valued because a forward pass itself can raise (the temporal model
does on 2-D input).  The top5 list sorts the same (nodes[i], norm_scores[i])
pairs the scores dict holds. -/
def compare_model_entry (nodes : List String) (n : Nat)
    (fwd : String → Except PyExn (List ℚ)) (mt : String) : ModelResult :=
  match (do
      let _ ← create_model mt []
      let raw ← fwd mt
      let norm_scores ← normalize_scores raw
      let scores ← scores_dict nodes norm_scores n
      pure (scores, (sort_desc_by_score scores).take 5) :
      Except PyExn (List (String × ℚ) × List (String × ℚ))) with
  | .ok p => .result p.1 p.2
  | .error e => .modelError e.message

/-- One pairwise model-agreement row of the /gcn/compare response. -/
structure AgreementEntry where
  model1 : String
  model2 : String
  spearman : ℚ
deriving Repr

/-- The /gcn/compare response: per-model results, the optional pairwise
rank-correlation block (stored under the dict key model_agreement in the
source), and the node/feature counts. -/
structure CompareResponse where
  results : List (String × ModelResult)
  model_agreement : Option (List AgreementEntry)
  n_nodes : Nat
  n_features : Nat
deriving Repr

/-- Did this model entry produce scores (rather than an inline error)? -/
def has_scores : ModelResult → Bool
  | .result _ _ => true
  | .modelError _ => false

/-- All i < j index pairs of a list of model names, in loop order. -/
def pairings : List String → List (String × String)
  | [] => []
  | a :: rest => rest.map (fun b => (a, b)) ++ pairings rest

/-- gcn_compare body (app.py lines 338-415): shape prologue, graph selection
(adjacency, else correlation at fixed threshold 0.3, else fully connected —
no k-NN option here), the per-model loop, then the spearman agreement block
computed only when at least two entries exist and at least two of them carry
scores.  The scipy spearman correlation of two score lists is the oracle
`spearman`, keyed by the two model names. -/
def gcn_compare_body (req : MultiModelRequest) (corrcoef : Nat → Nat → ℚ)
    (sqrtO : ℚ → ℚ) (fwd : String → Except PyExn (List ℚ))
    (spearman : String → String → ℚ) : Except PyExn CompareResponse := do
  let (n, f) ← np_shape_unpack2 req.features
  if n = 0 then
    throw (.http 400 "No nodes provided")
  let A ← (if py_truthy req.adjacency then
      pure (build_adj_matrix n (req.adjacency.getD []))
    else if py_truthy req.returns then
      np_add (build_correlation_graph corrcoef (req.returns.getD []).length (3 / 10)) (np_eye n)
    else pure (np_ones n))
  let _A_norm := normalize_adj sqrtO A
  let results := req.model_types.map (fun mt => (mt, compare_model_entry req.nodes n fwd mt))
  let score_models := (results.filter (fun p => has_scores p.2)).map Prod.fst
  let agreement :=
    if 2 ≤ results.length ∧ 2 ≤ score_models.length then
      some ((pairings score_models).map (fun p => AgreementEntry.mk p.1 p.2 (spearman p.1 p.2)))
    else none
  pure ⟨results, agreement, n, f⟩

/-- The /gcn/compare endpoint: body inside the blanket try/except. -/
def gcn_compare (req : MultiModelRequest) (corrcoef : Nat → Nat → ℚ)
    (sqrtO : ℚ → ℚ) (fwd : String → Except PyExn (List ℚ))
    (spearman : String → String → ℚ) : Except HTTPError CompareResponse :=
  handler_wrap (gcn_compare_body req corrcoef sqrtO fwd spearman)

/-! ### Helper lemmas for the success paths -/

theorem except_bind_ok {α β : Type} (a : α) (k : α → Except PyExn β) :
    (Except.ok a >>= k) = k a := rfl

theorem except_bind_error {α β : Type} (e : PyExn) (k : α → Except PyExn β) :
    ((Except.error e : Except PyExn α) >>= k) = Except.error e := rfl

theorem mapM_ok_of_all {α β : Type} (f : α → Except PyExn β) (g : α → β) :
    ∀ l : List α, (∀ x ∈ l, f x = .ok (g x)) → l.mapM f = .ok (l.map g) := by
  intro l
  induction l with
  | nil => intro _; rfl
  | cons a t ih =>
    intro h
    rw [List.mapM_cons, h a (List.mem_cons_self a t),
      ih (fun x hx => h x (List.mem_cons_of_mem a hx))]
    rfl

theorem np_shape_cons (r : List ℚ) (rs : List (List ℚ)) :
    np_shape (r :: rs) =
      if rs.all (fun row => row.length == r.length) then .ok [(r :: rs).length, r.length]
      else .error (.valueError "setting an array element with a sequence") := rfl

theorem np_shape_unpack2_ok {features : List (List ℚ)} {n f : Nat}
    (h : np_shape_unpack2 features = .ok (n, f)) : n = features.length ∧ 0 < n := by
  cases features with
  | nil =>
    have h' : (Except.error (PyExn.valueError "not enough values to unpack, expected 2 got 1") :
        Except PyExn (Nat × Nat)) = Except.ok (n, f) := h
    exact Except.noConfusion h'
  | cons r rs =>
    unfold np_shape_unpack2 at h
    rw [np_shape_cons] at h
    by_cases hall : rs.all (fun row => row.length == r.length)
    · rw [if_pos hall, except_bind_ok] at h
      have h' : Except.ok ((r :: rs).length, r.length) = Except.ok (n, f) := h
      injection h' with h1
      injection h1 with h2 h3
      subst h2
      exact ⟨rfl, Nat.succ_pos rs.length⟩
    · rw [if_neg hall, except_bind_error] at h
      exact Except.noConfusion h

theorem normalize_scores_ok (l : List ℚ) (h : l ≠ []) :
    ∃ out, normalize_scores l = .ok out ∧ out.length = l.length := by
  cases l with
  | nil => exact absurd rfl h
  | cons a rest =>
    by_cases hs : np_max (a :: rest) - np_min (a :: rest) < 1 / 1000000
    · refine ⟨(a :: rest).map fun _ => 50, ?_, by simp⟩
      show (if np_max (a :: rest) - np_min (a :: rest) < 1 / 1000000 then
          Except.ok ((a :: rest).map fun _ => 50)
        else Except.ok ((a :: rest).map fun s =>
          100 * (s - np_min (a :: rest)) / (np_max (a :: rest) - np_min (a :: rest)))) = _
      rw [if_pos hs]
    · refine ⟨(a :: rest).map fun s =>
        100 * (s - np_min (a :: rest)) / (np_max (a :: rest) - np_min (a :: rest)), ?_, by simp⟩
      show (if np_max (a :: rest) - np_min (a :: rest) < 1 / 1000000 then
          Except.ok ((a :: rest).map fun _ => 50)
        else Except.ok ((a :: rest).map fun s =>
          100 * (s - np_min (a :: rest)) / (np_max (a :: rest) - np_min (a :: rest)))) = _
      rw [if_neg hs]

theorem scores_dict_ok (nodes : List String) (norm : List ℚ) (n : Nat)
    (h1 : n ≤ nodes.length) (h2 : n ≤ norm.length) :
    scores_dict nodes norm n = .ok ((List.range n).map fun i => (nodes.getD i "", norm.getD i 0)) ∧
    ((List.range n).map fun i => ((nodes.getD i "", norm.getD i 0) : String × ℚ)).length = n := by
  constructor
  · apply mapM_ok_of_all
    intro i hi
    have hilt : i < n := List.mem_range.mp hi
    have hn1 : i < nodes.length := lt_of_lt_of_le hilt h1
    have hn2 : i < norm.length := lt_of_lt_of_le hilt h2
    rw [List.getElem?_eq_getElem hn1, List.getElem?_eq_getElem hn2]
    rw [List.getD_eq_getElem?_getD, List.getD_eq_getElem?_getD,
      List.getElem?_eq_getElem hn1, List.getElem?_eq_getElem hn2]
    rfl
  · rw [List.length_map, List.length_range]

theorem compare_model_entry_success (nodes : List String) (n : Nat)
    (fwd : String → Except PyExn (List ℚ)) (raw : List ℚ) (mt : String)
    (hok : create_model mt [] = .ok ()) (hfwd : fwd mt = .ok raw)
    (hraw : raw.length = n) (hn : 0 < n) (hnodes : n ≤ nodes.length) :
    ∃ scores, compare_model_entry nodes n fwd mt =
      .result scores ((sort_desc_by_score scores).take 5) ∧ scores.length = n := by
  have hraw_ne : raw ≠ [] := by
    intro hr
    rw [hr] at hraw
    exact absurd (hraw ▸ hn) (lt_irrefl 0)
  obtain ⟨out, hns, hlen⟩ := normalize_scores_ok raw hraw_ne
  have hsd := scores_dict_ok nodes out n hnodes (le_of_eq (hraw ▸ hlen).symm)
  refine ⟨_, ?_, hsd.2⟩
  unfold compare_model_entry
  rw [hok, except_bind_ok, hfwd, except_bind_ok, hns, except_bind_ok, hsd.1, except_bind_ok]
  rfl

/-- C8: a /gcn/compare request mixing the supported type simple with the
unknown type bogus succeeds as a whole: the simple entry carries a scores
list with one entry per node and the top5 head of the descending sort, the
bogus entry carries the inline error string raised by create_model, the
model-agreement block is absent (fewer than two models produced scores), and
the node/feature counts are intact. -/
theorem C8_compare_inline_model_error (nodes : List String) (features : List (List ℚ))
    (corrcoef : Nat → Nat → ℚ) (sqrtO : ℚ → ℚ) (fwd : String → Except PyExn (List ℚ))
    (spearman : String → String → ℚ) (n f : Nat) (raw : List ℚ)
    (hshape : np_shape_unpack2 features = .ok (n, f))
    (hfwd : fwd "simple" = .ok raw) (hraw : raw.length = n) (hnodes : n ≤ nodes.length) :
    ∃ scores,
      gcn_compare ⟨nodes, features, none, ["simple", "bogus"], 50, none⟩
          corrcoef sqrtO fwd spearman =
        .ok ⟨[("simple", ModelResult.result scores ((sort_desc_by_score scores).take 5)),
              ("bogus", ModelResult.modelError "Unknown model type: bogus")], none, n, f⟩ ∧
      scores.length = n ∧ ((sort_desc_by_score scores).take 5).length = min 5 n := by
  have hn : 0 < n := (np_shape_unpack2_ok hshape).2
  have hn0 : ¬(n = 0) := Nat.pos_iff_ne_zero.mp hn
  obtain ⟨scores, hentry, hslen⟩ :=
    compare_model_entry_success nodes n fwd raw "simple" rfl hfwd hraw hn hnodes
  have hbogus : compare_model_entry nodes n fwd "bogus" =
      .modelError "Unknown model type: bogus" := rfl
  refine ⟨scores, ?_, hslen, ?_⟩
  · simp only [gcn_compare, gcn_compare_body, handler_wrap, hshape, except_bind_ok,
      hn0, if_false, py_truthy, Bool.false_eq_true, List.map_cons, List.map_nil,
      hentry, hbogus, has_scores, List.filter, List.length_cons, List.length_nil]
    rfl
  · rw [List.length_take]
    unfold sort_desc_by_score
    rw [List.length_mergeSort, hslen]

/-- C8 witness: the concrete two-node request with model_types simple and
bogus, a constant forward oracle, evaluated through the theorem. -/
theorem C8_witness_concrete :
    np_shape_unpack2 [[1], [2]] = .ok (2, 1) ∧
    (∃ scores,
      gcn_compare ⟨["A", "B"], [[1], [2]], none, ["simple", "bogus"], 50, none⟩
          (fun _ _ => 0) (fun x => x) (fun _ => Except.ok [1, 2]) (fun _ _ => 0) =
        .ok ⟨[("simple", ModelResult.result scores ((sort_desc_by_score scores).take 5)),
              ("bogus", ModelResult.modelError "Unknown model type: bogus")], none, 2, 1⟩ ∧
      scores.length = 2 ∧ ((sort_desc_by_score scores).take 5).length = min 5 2) :=
  ⟨rfl, C8_compare_inline_model_error ["A", "B"] [[1], [2]] (fun _ _ => 0) (fun x => x)
    (fun _ => Except.ok [1, 2]) (fun _ _ => 0) 2 1 [1, 2] rfl rfl rfl (by decide)⟩

/-! ### /gcn/predict endpoint (C10) -/

/-- The info object of the /gcn/predict response: either the "no nodes" error
object of the n == 0 branch, or the usual statistics (training history of the
oracle-abstracted training loop omitted). -/
inductive PredictInfo where
  | noNodes
  | stats (n_nodes : Nat) (n_features : Nat) (train_epochs : Int)
deriving DecidableEq, Repr

/-- The /gcn/predict success response. -/
structure GCNResponse where
  scores : List (String × ℚ)
  info : PredictInfo
deriving DecidableEq, Repr

/-- gcn_predict body (app.py lines 215-256): the shape-unpack prologue runs
before the n == 0 guard, so an empty features list raises there; otherwise
graph construction, SimpleGCN scoring on fresh random weights (the oracle
raw_scores) and the score dict build. -/
def gcn_predict_body (req : GCNRequest) (sqrtO : ℚ → ℚ) (raw_scores : List ℚ) :
    Except PyExn GCNResponse := do
  let (n, f) ← np_shape_unpack2 req.features
  if n = 0 then
    return ⟨[], .noNodes⟩
  else
    let A := build_adj_matrix n req.adjacency
    let _A_norm := normalize_adj sqrtO A
    let norm_scores ← normalize_scores raw_scores
    let scores ← scores_dict req.nodes norm_scores n
    pure ⟨scores, .stats n f req.train_epochs⟩

/-- The /gcn/predict endpoint: body inside the blanket try/except. -/
def gcn_predict (req : GCNRequest) (sqrtO : ℚ → ℚ) (raw_scores : List ℚ) :
    Except HTTPError GCNResponse :=
  handler_wrap (gcn_predict_body req sqrtO raw_scores)

theorem gcn_predict_body_shape_error (req : GCNRequest) (sqrtO : ℚ → ℚ) (raw : List ℚ)
    {e : PyExn} (hshape : np_shape_unpack2 req.features = .error e) :
    gcn_predict_body req sqrtO raw = .error e := by
  unfold gcn_predict_body
  rw [hshape, except_bind_error]

theorem gcn_predict_body_main (req : GCNRequest) (sqrtO : ℚ → ℚ) (raw : List ℚ)
    {n f : Nat} (hshape : np_shape_unpack2 req.features = .ok (n, f)) (hn0 : ¬(n = 0)) :
    gcn_predict_body req sqrtO raw = (do
      let norm_scores ← normalize_scores raw
      let scores ← scores_dict req.nodes norm_scores n
      pure ⟨scores, .stats n f req.train_epochs⟩) := by
  unfold gcn_predict_body
  rw [hshape, except_bind_ok]
  exact if_neg hn0

/-- C10: a /gcn/predict request with an empty features list is answered with
HTTP 500 (the shape unpack n, f = X.shape raises on the 1-dimensional empty
array before the n == 0 guard), and the empty-success branch with scores {}
and the "no nodes" info object is unreachable for every request: a successful
response always carries the statistics info object. -/
theorem C10_predict_empty_features_500 :
    (∀ (nodes : List String) (edges : List (List Int)) (te : Int)
        (sqrtO : ℚ → ℚ) (raw : List ℚ),
      gcn_predict ⟨nodes, [], edges, te⟩ sqrtO raw =
        .error ⟨500, "not enough values to unpack, expected 2 got 1"⟩) ∧
    (∀ (req : GCNRequest) (sqrtO : ℚ → ℚ) (raw : List ℚ) (resp : GCNResponse),
      gcn_predict req sqrtO raw = .ok resp → resp.info ≠ PredictInfo.noNodes) := by
  constructor
  · intro nodes edges te sqrtO raw
    rfl
  · intro req sqrtO raw resp h resp_info
    unfold gcn_predict handler_wrap at h
    revert h
    cases hs : gcn_predict_body req sqrtO raw with
    | error e => intro h; exact Except.noConfusion h
    | ok r =>
      intro h
      have hr : r = resp := by
        injection h
      subst hr
      cases hshape : np_shape_unpack2 req.features with
      | error e =>
        rw [gcn_predict_body_shape_error req sqrtO raw hshape] at hs
        exact Except.noConfusion hs
      | ok p =>
        obtain ⟨n, f⟩ := p
        have hn0 : ¬(n = 0) := Nat.pos_iff_ne_zero.mp (np_shape_unpack2_ok hshape).2
        rw [gcn_predict_body_main req sqrtO raw hshape hn0] at hs
        cases hns : normalize_scores raw with
        | error e =>
          rw [hns, except_bind_error] at hs
          exact Except.noConfusion hs
        | ok norm =>
          rw [hns, except_bind_ok] at hs
          cases hsd : scores_dict req.nodes norm n with
          | error e =>
            rw [hsd, except_bind_error] at hs
            exact Except.noConfusion hs
          | ok sc =>
            rw [hsd, except_bind_ok] at hs
            have hresp : (⟨sc, .stats n f req.train_epochs⟩ : GCNResponse) = r := by
              injection hs
            have hinfo : r.info = PredictInfo.stats n f req.train_epochs := by
              rw [← hresp]
            rw [hinfo] at resp_info
            exact PredictInfo.noConfusion resp_info

/-! ### HybridGCN (C9) -/

/-- torch.mm. -/
def mat_mul (A B : Mat ℚ) : Mat ℚ :=
  ⟨A.rows, B.cols, fun i j => ∑ k ∈ Finset.range A.cols, A.entry i k * B.entry k j⟩

/-- Entrywise ReLU. -/
def relu_mat (A : Mat ℚ) : Mat ℚ := ⟨A.rows, A.cols, fun i j => max (A.entry i j) 0⟩

/-- torch.cat([A, B], dim=-1). -/
def hcat (A B : Mat ℚ) : Mat ℚ :=
  ⟨A.rows, A.cols + B.cols, fun i j => if j < A.cols then A.entry i j else B.entry i (j - A.cols)⟩

/-- GraphConvLayer of model.py: output = adj @ (x @ weight), plus the bias
broadcast over rows (the bias=True default is what HybridGCN uses). -/
structure GraphConvLayer where
  weight : Mat ℚ
  bias : Nat → ℚ

/-- GraphConvLayer.forward of model.py lines 38-53. -/
def GraphConvLayer.forward (l : GraphConvLayer) (x adj : Mat ℚ) : Mat ℚ :=
  let support := mat_mul x l.weight
  let output := mat_mul adj support
  ⟨output.rows, output.cols, fun i j => output.entry i j + l.bias j⟩

/-- nn.Linear: y = x @ weight.T + bias, weight stored [out_features,
in_features]. -/
structure Linear where
  weight : Mat ℚ
  bias : Nat → ℚ

/-- The affine map of nn.Linear. -/
def Linear.forward (l : Linear) (x : Mat ℚ) : Mat ℚ :=
  ⟨x.rows, l.weight.rows,
    fun i j => (∑ k ∈ Finset.range x.cols, x.entry i k * l.weight.entry j k) + l.bias j⟩

/-- weights[:, c:c+1] * h — the per-row scalar in column c of w, broadcast
over the columns of h. -/
def col_scale (w : Mat ℚ) (c : Nat) (h : Mat ℚ) : Mat ℚ :=
  ⟨h.rows, h.cols, fun i j => w.entry i c * h.entry i j⟩

/-- Pointwise sum of two same-shaped tensors. -/
def mat_add (A B : Mat ℚ) : Mat ℚ := ⟨A.rows, A.cols, fun i j => A.entry i j + B.entry i j⟩

/-- HybridGCN of model.py, fields in layer order: the two GraphConvLayers of
the GCN branch; the two Linear layers of the MLP branch (with ReLU and
Dropout between them); the two Linear layers of the fusion head (likewise);
the Linear layer of the attention head together with the nn.Softmax(dim=-1)
that follows it (softmax needs exp, kept as an oracle function field); and
the three dropout applications (identity in eval mode, a random mask in
training mode — oracle function fields). -/
structure HybridGCN where
  gcn1 : GraphConvLayer
  gcn2 : GraphConvLayer
  mlp1 : Linear
  mlp2 : Linear
  fusion1 : Linear
  fusion2 : Linear
  attention_linear : Linear
  softmax : Mat ℚ → Mat ℚ
  dropout_gcn : Mat ℚ → Mat ℚ
  dropout_mlp : Mat ℚ → Mat ℚ
  dropout_fusion : Mat ℚ → Mat ℚ

set_option linter.unusedVariables false in
/-- HybridGCN.forward of model.py lines 260-278, line for line: the GCN
branch, the MLP branch, the attention weights over the concatenation and the
attention-weighted sum h_fused, then the returned value out — which is the
fusion head applied to the plain concatenation, not h_fused — squeezed to a
per-node scalar. -/
def HybridGCN.forward (m : HybridGCN) (x adj : Mat ℚ) : Nat → ℚ :=
  let h_gcn := m.gcn2.forward (m.dropout_gcn (relu_mat (m.gcn1.forward x adj))) adj
  let h_mlp := m.mlp2.forward (m.dropout_mlp (relu_mat (m.mlp1.forward x)))
  let combined := hcat h_gcn h_mlp
  let weights := m.softmax (m.attention_linear.forward combined)
  let h_fused := mat_add (col_scale weights 0 h_gcn) (col_scale weights 1 h_mlp)
  let out := m.fusion2.forward (m.dropout_fusion (relu_mat (m.fusion1.forward (hcat h_gcn h_mlp))))
  fun i => out.entry i 0

/-- C9: HybridGCN.forward returns exactly the fusion MLP applied to the
concatenation of the GCN-branch output and the MLP-branch output; the learned
2-way softmax attention weights and the attention-weighted sum h_fused they
produce have no effect on the returned value — two models differing only in
the attention layer and its softmax give identical outputs on every input. -/
theorem C9_hybrid_attention_unused (g1 g2 : GraphConvLayer)
    (m1 m2 f1 f2 att att2 : Linear) (sm sm2 : Mat ℚ → Mat ℚ)
    (dg dm df : Mat ℚ → Mat ℚ) (x adj : Mat ℚ) :
    HybridGCN.forward ⟨g1, g2, m1, m2, f1, f2, att, sm, dg, dm, df⟩ x adj =
      (fun i =>
        (f2.forward (df (relu_mat (f1.forward (hcat
          (g2.forward (dg (relu_mat (g1.forward x adj))) adj)
          (m2.forward (dm (relu_mat (m1.forward x))))))))).entry i 0) ∧
    HybridGCN.forward ⟨g1, g2, m1, m2, f1, f2, att, sm, dg, dm, df⟩ x adj =
      HybridGCN.forward ⟨g1, g2, m1, m2, f1, f2, att2, sm2, dg, dm, df⟩ x adj :=
  ⟨rfl, rfl⟩

end StockGCN
